import Mathlib

/-!
# Verification of the bls-wallet cells / long-polling core

A shallow embedding of the Quill extension's reactive-cell core:

* `LongPollingController` (`longPoll`, `longPollCancel`, `cancelHandles`),
  embedded as a pure function over an explicit list of loop events;
* the background `PreferencesController` (`SelectedPreferences`, `createUser`);
* `TransformCell.Sub` (modelled from the spec, the class body is not in the
  sources) as a lens over JavaScript-style records;
* the change predicate of `approximate`.

JavaScript records (objects with string keys) are embedded as association
lists; the spread update `\x7b...obj, [k]: v\x7d` preserves the position of an
existing key and appends a fresh key at the end, which `objUpdate` mirrors.
-/

namespace BlsWallet

/-! ## JavaScript records as association lists -/

/-- Key lookup on a JavaScript-style record, `obj[k]`: the first binding of
`k` wins (records produced by object literals never hold duplicates). -/
def objLookup {V : Type} : List (String × V) → String → Option V
  | [], _ => none
  | (k', v') :: rest, k => if k' = k then some v' else objLookup rest k

/-- The spread update `\x7b...obj, [k]: v\x7d`: replace the binding of `k`
in place when present, append it otherwise. -/
def objUpdate {V : Type} : List (String × V) → String → V → List (String × V)
  | [], k, v => [(k, v)]
  | (k', v') :: rest, k, v =>
    if k' = k then (k, v) :: rest else (k', v') :: objUpdate rest k v

theorem objLookup_objUpdate_self {V : Type} (m : List (String × V)) (k : String) (v : V) :
    objLookup (objUpdate m k v) k = some v := by
  induction m with
  | nil => simp [objUpdate, objLookup]
  | cons hd tl ih =>
    obtain ⟨k', v'⟩ := hd
    by_cases h : k' = k
    · simp [objUpdate, objLookup, h]
    · simp [objUpdate, objLookup, h, ih]

theorem objLookup_objUpdate_ne {V : Type} (m : List (String × V)) (k k' : String) (v : V)
    (h : k' ≠ k) : objLookup (objUpdate m k v) k' = objLookup m k' := by
  induction m with
  | nil =>
    have h1 : ¬(k = k') := fun hc => h hc.symm
    simp [objUpdate, objLookup, h1]
  | cons hd tl ih =>
    obtain ⟨k0, v0⟩ := hd
    by_cases hk0 : k0 = k
    · subst hk0
      have h1 : ¬(k0 = k') := fun hc => h hc.symm
      simp [objUpdate, objLookup, h1]
    · by_cases hk0' : k0 = k'
      · subst hk0'
        simp [objUpdate, objLookup, hk0]
      · simp [objUpdate, objLookup, hk0, hk0', ih]

/-! ## LongPollingController

`LongPollingController.rpc.longPoll` iterates a `Stoppable` wrapper of the
target cell inside a `for await` loop.  The loop consumes, in processing
order, either observed cell values or the effect of a `stop()` call (coming
from the deadline timer or from a cancel handle).  We embed this order of
consumption as an explicit list of `LPEvent`s. -/

/-- One step consumed by the `for await (const maybe of stoppable)` loop:
a value observed from the cell, the deadline timer firing
(`setTimeout(() => stoppable.stop(), maxWaitTime)`), or the cancel handle
firing (`res = 'cancelled'; stoppable.stop()`).  Modelled from the spec for
the part played by `Stoppable` (its class body is not in the sources): once
stopped, the suspended iteration step resolves with the terminal `'stopped'`
marker instead of a value, so events after a `timeout` or `cancel` are never
delivered to the loop. -/
inductive LPEvent (V : Type) where
  | observe (v : V)
  | timeout
  | cancel
deriving DecidableEq, Repr

/-- The result type of `longPoll`: `{ value }`, `'please-retry'` or
`'cancelled'`. -/
inductive LongPollResult (V : Type) where
  | value (v : V)
  | pleaseRetry
  | cancelled
deriving DecidableEq, Repr

/-- `const maxWaitTime = 300_000;` -/
def maxWaitTime : Nat := 300000

/-- The loop guard `!differentMaybe || cell.hasChanged(differentMaybe.value,
maybe.value)`: a value qualifies when no comparison payload was supplied or
the cell's change predicate reports a difference from the payload. -/
def qualifies {V : Type} (hasChanged : V → V → Bool) (differentMaybe : Option V)
    (v : V) : Bool :=
  match differentMaybe with
  | none => true
  | some d => hasChanged d v

/-- The composite handle key (part_002 line 44): the template literal
interpolating `providerId`, a colon, and `longPollingId`. -/
def fullLongPollingId (providerId longPollingId : String) : String :=
  providerId ++ ":" ++ longPollingId

/-- The `for await` loop of `longPoll` (part_002 lines 59-78), starting from
`res = 'please-retry'`:

* an observed value breaks the loop with `res = \x7b value \x7d` when it
  qualifies, otherwise iteration continues;
* the timer's `stop()` makes the loop see `'stopped'` and break with `res`
  still `'please-retry'`;
* a cancel handle sets `res = 'cancelled'` and stops, so the loop sees
  `'stopped'` and breaks with `res = 'cancelled'`;
* if the event list is exhausted the cell's iteration ended while awaited,
  and `assert(!cell.ended, () => new Error(...))` throws. -/
def lpLoop {V : Type} (cellName : String) (q : V → Bool) :
    List (LPEvent V) → Except String (LongPollResult V)
  | [] => Except.error ("Unexpected end of " ++ cellName)
  | LPEvent.observe v :: rest =>
    if q v then Except.ok (LongPollResult.value v) else lpLoop cellName q rest
  | LPEvent.timeout :: _ => Except.ok LongPollResult.pleaseRetry
  | LPEvent.cancel :: _ => Except.ok LongPollResult.cancelled

/-- `delete this.cancelHandles[fullLongPollingId]`, on the handle map
embedded as its list of keys. -/
def removeHandle (cancelHandles : List String) (k : String) : List String :=
  cancelHandles.filter (fun x => x ≠ k)

/-- `LongPollingController.rpc.longPoll` (part_002 lines 26-79):

1. `assertType(cellName, LongPollingCellName)` — embedded as the
   `validCellName` flag (the enumerated-set membership test);
2. `assert(isPermittedOrigin(origin, longPollingDetails.origin))` — embedded
   as the `permittedOrigin` flag (the declared visibility rule, whose body is
   not in the sources; `assert` throws when it is false);
3. `assertType(differentMaybe, ...)` — the `validPayload` flag;
4. the cancel handle is stored under `fullLongPollingId`;
5. the loop runs; afterwards the timer is cleared and the handle deleted
   (the deletion precedes the `!cell.ended` assertion, so it happens on
   every path that reaches the loop).

Returns the RPC outcome together with the final handle-key map. -/
def longPoll {V : Type} (hasChanged : V → V → Bool)
    (validCellName permittedOrigin validPayload : Bool)
    (cellName providerId longPollingId : String)
    (differentMaybe : Option V) (events : List (LPEvent V))
    (cancelHandles : List String) :
    Except String (LongPollResult V) × List String :=
  if validCellName = false then
    (Except.error "Invalid cell name", cancelHandles)
  else if permittedOrigin = false then
    (Except.error "Assertion failed", cancelHandles)
  else if validPayload = false then
    (Except.error "Invalid differentMaybe", cancelHandles)
  else
    let fullId := fullLongPollingId providerId longPollingId
    let withHandle := fullId :: cancelHandles
    (lpLoop cellName (qualifies hasChanged differentMaybe) events,
      removeHandle withHandle fullId)

/-- `LongPollingController.rpc.longPollCancel` (part_002 lines 81-84):
`this.cancelHandles[fullLongPollingId]?.cancel()`.  Returns the key of the
wait whose cancel handle fires, or `none` when the optional chaining finds
no handle (a silent no-op). -/
def longPollCancel (cancelHandles : List String)
    (providerId longPollingId : String) : Option String :=
  let fullId := fullLongPollingId providerId longPollingId
  if fullId ∈ cancelHandles then some fullId else none

theorem qualifies_eq_true_iff {V : Type} (hasChanged : V → V → Bool)
    (dm : Option V) (v : V) :
    qualifies hasChanged dm v = true ↔
      dm = none ∨ ∃ d, dm = some d ∧ hasChanged d v = true := by
  cases dm <;> simp [qualifies]

theorem lpLoop_append_nonqualifying {V : Type} (cellName : String) (q : V → Bool)
    (xs ys : List (LPEvent V))
    (h : ∀ e ∈ xs, ∃ u, e = LPEvent.observe u ∧ q u = false) :
    lpLoop cellName q (xs ++ ys) = lpLoop cellName q ys := by
  induction xs with
  | nil => rfl
  | cons e rest ih =>
    obtain ⟨u, he, hu⟩ := h e (by simp)
    subst he
    simp only [List.cons_append, lpLoop, hu, Bool.false_eq_true, if_false]
    exact ih (fun e' he' => h e' (List.mem_cons_of_mem _ he'))

theorem lpLoop_value_iff {V : Type} (cellName : String) (q : V → Bool)
    (events : List (LPEvent V)) (v : V) :
    lpLoop cellName q events = Except.ok (LongPollResult.value v) ↔
      ∃ xs ys, events = xs ++ LPEvent.observe v :: ys ∧ q v = true ∧
        ∀ e ∈ xs, ∃ u, e = LPEvent.observe u ∧ q u = false := by
  induction events with
  | nil =>
    constructor
    · intro h
      simp [lpLoop] at h
    · rintro ⟨xs, ys, hxs, -, -⟩
      exact absurd hxs (by simp)
  | cons e rest ih =>
    cases e with
    | observe u =>
      cases hu : q u with
      | true =>
        simp only [lpLoop, hu, if_true]
        constructor
        · intro h
          have huv : u = v := by
            simpa [Except.ok.injEq, LongPollResult.value.injEq] using h
          subst huv
          exact ⟨[], rest, by simp, hu, by simp⟩
        · rintro ⟨xs, ys, heq, hqv, hxs⟩
          cases xs with
          | nil =>
            simp only [List.nil_append, List.cons.injEq,
              LPEvent.observe.injEq] at heq
            rw [heq.1]
          | cons x xs' =>
            obtain ⟨u', hx, hu'⟩ := hxs x (by simp)
            have hxu : x = LPEvent.observe u := by
              have := heq
              simp only [List.cons_append, List.cons.injEq] at this
              exact this.1.symm
            rw [hxu] at hx
            have : u = u' := by
              simpa [LPEvent.observe.injEq] using hx
            rw [← this] at hu'
            rw [hu] at hu'
            exact absurd hu' (by simp)
      | false =>
        simp only [lpLoop, hu, Bool.false_eq_true, if_false]
        rw [ih]
        constructor
        · rintro ⟨xs, ys, heq, hqv, hxs⟩
          refine ⟨LPEvent.observe u :: xs, ys, by simp [heq], hqv, ?_⟩
          intro e he
          rcases List.mem_cons.mp he with he | he
          · exact ⟨u, he, hu⟩
          · exact hxs e he
        · rintro ⟨xs, ys, heq, hqv, hxs⟩
          cases xs with
          | nil =>
            simp only [List.nil_append, List.cons.injEq,
              LPEvent.observe.injEq] at heq
            rw [heq.1] at hu
            rw [hqv] at hu
            exact absurd hu (by simp)
          | cons x xs' =>
            simp only [List.cons_append, List.cons.injEq] at heq
            refine ⟨xs', ys, heq.2, hqv, ?_⟩
            intro e he
            exact hxs e (List.mem_cons_of_mem _ he)
    | timeout =>
      constructor
      · intro h
        simp [lpLoop] at h
      · rintro ⟨xs, ys, heq, -, hxs⟩
        cases xs with
        | nil => simp at heq
        | cons x xs' =>
          obtain ⟨u, hx, -⟩ := hxs x (by simp)
          subst hx
          simp at heq
    | cancel =>
      constructor
      · intro h
        simp [lpLoop] at h
      · rintro ⟨xs, ys, heq, -, hxs⟩
        cases xs with
        | nil => simp at heq
        | cons x xs' =>
          obtain ⟨u, hx, -⟩ := hxs x (by simp)
          subst hx
          simp at heq

theorem longPoll_run {V : Type} (hasChanged : V → V → Bool)
    (cellName providerId longPollingId : String)
    (differentMaybe : Option V) (events : List (LPEvent V))
    (cancelHandles : List String) :
    longPoll hasChanged true true true cellName providerId longPollingId
        differentMaybe events cancelHandles =
      (lpLoop cellName (qualifies hasChanged differentMaybe) events,
        removeHandle
          (fullLongPollingId providerId longPollingId :: cancelHandles)
          (fullLongPollingId providerId longPollingId)) := rfl

theorem self_not_mem_removeHandle (cancelHandles : List String) (k : String) :
    k ∉ removeHandle cancelHandles k := by
  simp [removeHandle, List.mem_filter]

theorem mem_removeHandle_cons_iff (cancelHandles : List String) (fullId k : String)
    (h : k ≠ fullId) :
    (k ∈ removeHandle (fullId :: cancelHandles) fullId ↔ k ∈ cancelHandles) := by
  simp [removeHandle, List.mem_filter, h]

/-- C1: the long-poll wait resolves with `{value: v}` iff some value `v`
observed from the target cell's iteration qualifies — no `differentMaybe`
payload was supplied, or `hasChanged` reports that `v` differs from the
payload — and every value observed before it was reported unchanged, so
iteration continued past it. -/
theorem longPoll_resolves_value_iff {V : Type} (hasChanged : V → V → Bool)
    (validCellName permittedOrigin validPayload : Bool)
    (cellName providerId longPollingId : String)
    (differentMaybe : Option V) (events : List (LPEvent V))
    (cancelHandles : List String) (v : V)
    (hvalid : validCellName = true) (hperm : permittedOrigin = true)
    (hpay : validPayload = true) :
    (longPoll hasChanged validCellName permittedOrigin validPayload cellName
        providerId longPollingId differentMaybe events cancelHandles).1 =
      Except.ok (LongPollResult.value v) ↔
      ∃ xs ys, events = xs ++ LPEvent.observe v :: ys ∧
        (differentMaybe = none ∨
          ∃ d, differentMaybe = some d ∧ hasChanged d v = true) ∧
        ∀ e ∈ xs, ∃ u, e = LPEvent.observe u ∧
          qualifies hasChanged differentMaybe u = false := by
  subst hvalid
  subst hperm
  subst hpay
  rw [longPoll_run]
  rw [lpLoop_value_iff]
  simp only [qualifies_eq_true_iff]

theorem longPoll_resolves_value_iff_witness :
    (true = true) ∧
    ((longPoll (fun a b : Nat => a != b) true true true "blockNumber" "p" "lp"
        (some 5)
        [LPEvent.observe 5, LPEvent.observe 5, LPEvent.observe 7] []).1 =
      Except.ok (LongPollResult.value 7) ↔
      ∃ xs ys,
        [LPEvent.observe 5, LPEvent.observe 5, LPEvent.observe 7] =
          xs ++ LPEvent.observe 7 :: ys ∧
        ((some 5 : Option Nat) = none ∨
          ∃ d, (some 5 : Option Nat) = some d ∧ (d != 7) = true) ∧
        ∀ e ∈ xs, ∃ u, e = LPEvent.observe u ∧
          qualifies (fun a b : Nat => a != b) (some 5) u = false) :=
  ⟨rfl,
    longPoll_resolves_value_iff (fun a b : Nat => a != b) true true true
      "blockNumber" "p" "lp" (some 5)
      [LPEvent.observe 5, LPEvent.observe 5, LPEvent.observe 7] [] 7
      rfl rfl rfl⟩

/-- C2: once a long-poll wait that created a handle resolves by any path,
the handle stored under its composite key is deleted — it never outlives
the wait — every other key's presence in the handle map is untouched, and
a `longPollCancel` whose composite id matches no outstanding handle is a
silent no-op. -/
theorem cancelHandles_lifecycle {V : Type} (hasChanged : V → V → Bool)
    (validCellName permittedOrigin validPayload : Bool)
    (cellName providerId longPollingId : String)
    (differentMaybe : Option V) (events : List (LPEvent V))
    (cancelHandles : List String)
    (hvalid : validCellName = true) (hperm : permittedOrigin = true)
    (hpay : validPayload = true) :
    (fullLongPollingId providerId longPollingId ∉
        (longPoll hasChanged validCellName permittedOrigin validPayload
          cellName providerId longPollingId differentMaybe events
          cancelHandles).2) ∧
    (∀ k, k ≠ fullLongPollingId providerId longPollingId →
      (k ∈ (longPoll hasChanged validCellName permittedOrigin validPayload
          cellName providerId longPollingId differentMaybe events
          cancelHandles).2 ↔ k ∈ cancelHandles)) ∧
    (fullLongPollingId providerId longPollingId ∉ cancelHandles →
      longPollCancel cancelHandles providerId longPollingId = none) := by
  subst hvalid
  subst hperm
  subst hpay
  rw [longPoll_run]
  refine ⟨self_not_mem_removeHandle _ _, ?_, ?_⟩
  · intro k hk
    exact mem_removeHandle_cons_iff cancelHandles _ k hk
  · intro hmem
    simp [longPollCancel, hmem]

theorem cancelHandles_lifecycle_witness :
    (true = true) ∧
    (((fullLongPollingId "p" "lp") ∉
        (longPoll (fun a b : Nat => a != b) true true true "blockNumber" "p"
          "lp" none [LPEvent.timeout] ["q:other"]).2) ∧
    (∀ k, k ≠ fullLongPollingId "p" "lp" →
      (k ∈ (longPoll (fun a b : Nat => a != b) true true true "blockNumber"
          "p" "lp" none [LPEvent.timeout] ["q:other"]).2 ↔
        k ∈ ["q:other"])) ∧
    (fullLongPollingId "p" "lp" ∉ ["q:other"] →
      longPollCancel ["q:other"] "p" "lp" = none)) :=
  ⟨rfl,
    cancelHandles_lifecycle (fun a b : Nat => a != b) true true true
      "blockNumber" "p" "lp" none [LPEvent.timeout] ["q:other"]
      rfl rfl rfl⟩

/-- C3: when every value observed before the deadline is reported unchanged
and the `maxWaitTime` timer (300 000 ms) then stops the wrapped `Stoppable`
iteration, the wait resolves with the `'please-retry'` sentinel — an
ordinary `Except.ok` outcome, produced exactly once since `longPoll`
returns a single result — and the cancellation handle is removed. -/
theorem longPoll_deadline_please_retry {V : Type} (hasChanged : V → V → Bool)
    (validCellName permittedOrigin validPayload : Bool)
    (cellName providerId longPollingId : String)
    (differentMaybe : Option V) (events xs ys : List (LPEvent V))
    (cancelHandles : List String)
    (hvalid : validCellName = true) (hperm : permittedOrigin = true)
    (hpay : validPayload = true)
    (hevents : events = xs ++ LPEvent.timeout :: ys)
    (hxs : ∀ e ∈ xs, ∃ u, e = LPEvent.observe u ∧
      qualifies hasChanged differentMaybe u = false) :
    (longPoll hasChanged validCellName permittedOrigin validPayload cellName
        providerId longPollingId differentMaybe events cancelHandles).1 =
      Except.ok LongPollResult.pleaseRetry ∧
    fullLongPollingId providerId longPollingId ∉
      (longPoll hasChanged validCellName permittedOrigin validPayload
        cellName providerId longPollingId differentMaybe events
        cancelHandles).2 ∧
    maxWaitTime = 300000 := by
  subst hvalid
  subst hperm
  subst hpay
  subst hevents
  rw [longPoll_run]
  refine ⟨?_, self_not_mem_removeHandle _ _, rfl⟩
  rw [lpLoop_append_nonqualifying _ _ _ _ hxs]
  rfl

theorem longPoll_deadline_please_retry_witness :
    (true = true) ∧
    ((longPoll (fun a b : Nat => a != b) true true true "blockNumber" "p"
        "lp" (some 5) [LPEvent.observe 5, LPEvent.timeout] []).1 =
      Except.ok LongPollResult.pleaseRetry ∧
    fullLongPollingId "p" "lp" ∉
      (longPoll (fun a b : Nat => a != b) true true true "blockNumber" "p"
        "lp" (some 5) [LPEvent.observe 5, LPEvent.timeout] []).2 ∧
    maxWaitTime = 300000) :=
  ⟨rfl,
    longPoll_deadline_please_retry (fun a b : Nat => a != b) true true true
      "blockNumber" "p" "lp" (some 5) [LPEvent.observe 5, LPEvent.timeout]
      [LPEvent.observe 5] [] [] rfl rfl rfl rfl
      (by
        intro e he
        simp only [List.mem_singleton] at he
        exact ⟨5, he, by simp [qualifies]⟩)⟩

/-- C4: when the cancel handle of an outstanding wait fires — after any
values reported unchanged, and before any further value is delivered to the
loop — the wait resolves to `'cancelled'`, no matter which qualifying
values become available afterwards (the suffix `ys` is arbitrary). -/
theorem longPoll_cancellation_priority {V : Type} (hasChanged : V → V → Bool)
    (validCellName permittedOrigin validPayload : Bool)
    (cellName providerId longPollingId : String)
    (differentMaybe : Option V) (events xs ys : List (LPEvent V))
    (cancelHandles : List String)
    (hvalid : validCellName = true) (hperm : permittedOrigin = true)
    (hpay : validPayload = true)
    (hevents : events = xs ++ LPEvent.cancel :: ys)
    (hxs : ∀ e ∈ xs, ∃ u, e = LPEvent.observe u ∧
      qualifies hasChanged differentMaybe u = false) :
    (longPoll hasChanged validCellName permittedOrigin validPayload cellName
        providerId longPollingId differentMaybe events cancelHandles).1 =
      Except.ok LongPollResult.cancelled := by
  subst hvalid
  subst hperm
  subst hpay
  subst hevents
  rw [longPoll_run]
  show lpLoop cellName (qualifies hasChanged differentMaybe)
    (xs ++ LPEvent.cancel :: ys) = Except.ok LongPollResult.cancelled
  rw [lpLoop_append_nonqualifying _ _ _ _ hxs]
  rfl

theorem longPoll_cancellation_priority_witness :
    (true = true) ∧
    (longPoll (fun a b : Nat => a != b) true true true "blockNumber" "p"
        "lp" (some 5)
        [LPEvent.observe 5, LPEvent.cancel, LPEvent.observe 7] []).1 =
      Except.ok LongPollResult.cancelled :=
  ⟨rfl,
    longPoll_cancellation_priority (fun a b : Nat => a != b) true true true
      "blockNumber" "p" "lp" (some 5)
      [LPEvent.observe 5, LPEvent.cancel, LPEvent.observe 7]
      [LPEvent.observe 5] [LPEvent.observe 7] [] rfl rfl rfl rfl
      (by
        intro e he
        simp only [List.mem_singleton] at he
        exact ⟨5, he, by simp [qualifies]⟩)⟩

/-- C6: when the requesting origin is not permitted to observe the cell,
`longPoll` throws before creating anything: the result is an error, no
value is returned, and the cancellation-handle map is returned unchanged —
no wait or handle was ever created. -/
theorem longPoll_permission_denied {V : Type} (hasChanged : V → V → Bool)
    (validCellName permittedOrigin validPayload : Bool)
    (cellName providerId longPollingId : String)
    (differentMaybe : Option V) (events : List (LPEvent V))
    (cancelHandles : List String)
    (hvalid : validCellName = true) (hperm : permittedOrigin = false) :
    (longPoll hasChanged validCellName permittedOrigin validPayload cellName
        providerId longPollingId differentMaybe events cancelHandles).1 =
      Except.error "Assertion failed" ∧
    (longPoll hasChanged validCellName permittedOrigin validPayload cellName
        providerId longPollingId differentMaybe events cancelHandles).2 =
      cancelHandles := by
  subst hvalid
  subst hperm
  exact ⟨rfl, rfl⟩

theorem longPoll_permission_denied_witness :
    (true = true) ∧
    ((longPoll (fun a b : Nat => a != b) true false true "blockNumber" "p"
        "lp" none [LPEvent.observe 7] ["q:other"]).1 =
      Except.error "Assertion failed" ∧
    (longPoll (fun a b : Nat => a != b) true false true "blockNumber" "p"
        "lp" none [LPEvent.observe 7] ["q:other"]).2 = ["q:other"]) :=
  ⟨rfl,
    longPoll_permission_denied (fun a b : Nat => a != b) true false true
      "blockNumber" "p" "lp" none [LPEvent.observe 7] ["q:other"]
      rfl rfl⟩

/-- C7: if the target cell ends its sequence while still being awaited —
the loop runs out of events with every observed value reported unchanged —
`longPoll` surfaces the fatal assertion failure `Unexpected end of
<cellName>` instead of resolving with a sentinel or value. -/
theorem longPoll_unexpected_end {V : Type} (hasChanged : V → V → Bool)
    (validCellName permittedOrigin validPayload : Bool)
    (cellName providerId longPollingId : String)
    (differentMaybe : Option V) (events : List (LPEvent V))
    (cancelHandles : List String)
    (hvalid : validCellName = true) (hperm : permittedOrigin = true)
    (hpay : validPayload = true)
    (hall : ∀ e ∈ events, ∃ u, e = LPEvent.observe u ∧
      qualifies hasChanged differentMaybe u = false) :
    (longPoll hasChanged validCellName permittedOrigin validPayload cellName
        providerId longPollingId differentMaybe events cancelHandles).1 =
      Except.error ("Unexpected end of " ++ cellName) := by
  subst hvalid
  subst hperm
  subst hpay
  rw [longPoll_run]
  show lpLoop cellName (qualifies hasChanged differentMaybe) events =
    Except.error ("Unexpected end of " ++ cellName)
  have h1 : events = events ++ [] := by simp
  rw [h1, lpLoop_append_nonqualifying _ _ _ _ hall]
  rfl

theorem longPoll_unexpected_end_witness :
    (true = true) ∧
    (longPoll (fun a b : Nat => a != b) true true true "blockNumber" "p"
        "lp" (some 5) [LPEvent.observe 5] []).1 =
      Except.error ("Unexpected end of " ++ "blockNumber") :=
  ⟨rfl,
    longPoll_unexpected_end (fun a b : Nat => a != b) true true true
      "blockNumber" "p" "lp" (some 5) [LPEvent.observe 5] [] rfl rfl rfl
      (by
        intro e he
        simp only [List.mem_singleton] at he
        exact ⟨5, he, by simp [qualifies]⟩)⟩

theorem append_right_cancel_string (p1 p2 s : String) (h : p1 ++ s = p2 ++ s) :
    p1 = p2 := by
  apply String.ext
  have hd := congrArg String.data h
  simp only [String.data_append] at hd
  exact List.append_cancel_right hd

theorem fullLongPollingId_ne_of_ne_same_id (p1 p2 longPollingId : String)
    (h : p1 ≠ p2) :
    fullLongPollingId p1 longPollingId ≠ fullLongPollingId p2 longPollingId := by
  intro hc
  apply h
  have h1 : p1 ++ ":" = p2 ++ ":" :=
    append_right_cancel_string _ _ longPollingId hc
  exact append_right_cancel_string _ _ ":" h1

/-- C9 (counterexample): composite handle keys are formed by bare `:`
concatenation, so two *distinct* requester identities can collide — requester
`"a"` with poll id `"b:c"` and requester `"a:b"` with poll id `"c"` share the
key `"a:b:c"`, and a `longPollCancel` issued by requester `"a"` fires the
cancel handle of the wait created by requester `"a:b"`. -/
theorem longPollCancel_cross_requester_collision :
    fullLongPollingId "a" "b:c" = fullLongPollingId "a:b" "c" ∧
    ("a" : String) ≠ "a:b" ∧
    longPollCancel [fullLongPollingId "a:b" "c"] "a" "b:c" =
      some (fullLongPollingId "a:b" "c") := by
  refine ⟨by decide, by decide, ?_⟩
  simp [longPollCancel, fullLongPollingId]

/-- C9 (amended): the handle key of a long-poll wait is the requester
identity combined with the client-chosen `longPollingId` via the template
literal `providerId ++ ":" ++ longPollingId`, so for any two distinct requester
identities *using the same `longPollingId` string* the composite keys
differ, and a `longPollCancel` issued by one requester never resolves a
wait created by the other; with differing `longPollingId` strings the keys
can collide when a requester identity contains `':'`. -/
theorem longPollCancel_requester_isolation_same_id
    (p1 p2 longPollingId : String) (cancelHandles : List String)
    (hne : p1 ≠ p2)
    (hh : cancelHandles = [fullLongPollingId p2 longPollingId]) :
    fullLongPollingId p1 longPollingId ≠ fullLongPollingId p2 longPollingId ∧
    longPollCancel cancelHandles p1 longPollingId = none := by
  have h1 := fullLongPollingId_ne_of_ne_same_id p1 p2 longPollingId hne
  subst hh
  refine ⟨h1, ?_⟩
  simp [longPollCancel, h1]

theorem longPollCancel_requester_isolation_same_id_witness :
    (("p1" : String) ≠ "p2") ∧
    (fullLongPollingId "p1" "lp" ≠ fullLongPollingId "p2" "lp" ∧
      longPollCancel [fullLongPollingId "p2" "lp"] "p1" "lp" = none) :=
  ⟨by decide,
    longPollCancel_requester_isolation_same_id "p1" "p2" "lp"
      [fullLongPollingId "p2" "lp"] (by decide) rfl⟩

/-! ## PreferencesController and TransformCell lenses

`AddressPreferences` is embedded with the fields `createUser` and the
contacts methods manipulate; `Preferences` with the two fields the claims
touch (`identities`, `selectedAddress`). -/

structure AddressPreferences where
  theme : String
  defaultPublicAddress : String
  preferredCurrency : String
  contacts : List String
deriving DecidableEq, Repr

/-- Modelled from the spec: `defaultAddressPreferences` from
`./Preferences` is not in the sources; the base preferences every new user
starts from, an arbitrary but fixed record. -/
def defaultAddressPreferences : AddressPreferences :=
  { theme := "light"
    defaultPublicAddress := ""
    preferredCurrency := "USD"
    contacts := [] }

structure Preferences where
  identities : List (String × AddressPreferences)
  selectedAddress : Option String
deriving DecidableEq, Repr

/-- A bidirectional lens: the read and write sides of a `TransformCell`
over a parent value of type `P` with sub-part type `V`. -/
structure Lens (P V : Type) where
  read : P → Option V
  write : P → V → P

/-- Modelled from the spec: `TransformCell.Sub(parent, key)` (the
`TransformCell` class body is not in the sources — only its callers are):
read projects the sub-part at `key` out of the parent's current value;
write computes a full replacement of the parent's value that merges the new
sub-part in, `\x7b...parent, [key]: v\x7d`, and writes that to the parent. -/
def TransformCell.Sub {V : Type} (key : String) : Lens (List (String × V)) V :=
  { read := fun parent => objLookup parent key
    write := fun parent v => objUpdate parent key v }

/-- Read side of `PreferencesController.SelectedPreferences` (part_002 lines
142-155): resolve `selectedAddress` (`assert(s.selectedAddress !==
undefined)`), then project `$identities[selectedAddress]`
(`assert(prefs !== undefined)`). -/
def SelectedPreferences.read (prefs : Preferences) :
    Except String AddressPreferences :=
  match prefs.selectedAddress with
  | none => Except.error "Assertion failed"
  | some sa =>
    match objLookup prefs.identities sa with
    | none => Except.error "Assertion failed"
    | some p => Except.ok p

/-- Write side of `PreferencesController.SelectedPreferences` (part_002
lines 156-159): produce `\x7b ...$identities, [selectedAddress]: newPrefs \x7d`
and write it through to the parent `identities` cell (itself
`TransformCell.Sub(preferences, 'identities')`). -/
def SelectedPreferences.write (prefs : Preferences)
    (newPrefs : AddressPreferences) : Except String Preferences :=
  match prefs.selectedAddress with
  | none => Except.error "Assertion failed"
  | some sa =>
    Except.ok
      { prefs with identities := objUpdate prefs.identities sa newPrefs }

/-- C5: lens round trip.  Writing `v` through `TransformCell.Sub(parent,
key)` and then reading through the lens returns `v`; the parent afterwards
shows the sub-part at `key` updated while every other key is unchanged.
The same holds for `PreferencesController.SelectedPreferences`, whose write
function produces `\x7b ...$identities, [selectedAddress]: newPrefs \x7d`:
the lens reads back `newPrefs` and all other identities entries and the
selected address are untouched. -/
theorem transformCell_lens_round_trip {V : Type}
    (parent : List (String × V)) (key : String) (v : V) :
    ((TransformCell.Sub key).read ((TransformCell.Sub key).write parent v) =
      some v) ∧
    (∀ k', k' ≠ key →
      objLookup ((TransformCell.Sub key).write parent v) k' =
        objLookup parent k') ∧
    (∀ (prefs : Preferences) (sa : String) (newPrefs : AddressPreferences),
      prefs.selectedAddress = some sa →
      ∃ prefs2,
        SelectedPreferences.write prefs newPrefs = Except.ok prefs2 ∧
        SelectedPreferences.read prefs2 = Except.ok newPrefs ∧
        prefs2.selectedAddress = prefs.selectedAddress ∧
        ∀ k', k' ≠ sa →
          objLookup prefs2.identities k' = objLookup prefs.identities k') := by
  refine ⟨?_, ?_, ?_⟩
  · simp [TransformCell.Sub, objLookup_objUpdate_self]
  · intro k' h
    simp only [TransformCell.Sub]
    exact objLookup_objUpdate_ne parent key k' v h
  · intro prefs sa newPrefs hsa
    refine ⟨{ prefs with identities := objUpdate prefs.identities sa newPrefs },
      ?_, ?_, rfl, ?_⟩
    · simp [SelectedPreferences.write, hsa]
    · simp [SelectedPreferences.read, hsa, objLookup_objUpdate_self]
    · intro k' h
      exact objLookup_objUpdate_ne prefs.identities sa k' newPrefs h

theorem transformCell_lens_round_trip_witness :
    ((TransformCell.Sub "k").read
        ((TransformCell.Sub "k").write [("k", 1), ("other", 99)] 9) =
      some 9) ∧
    (∀ k', k' ≠ "k" →
      objLookup ((TransformCell.Sub "k").write [("k", 1), ("other", 99)] 9)
          k' = objLookup [("k", 1), ("other", 99)] k') ∧
    (∀ (prefs : Preferences) (sa : String) (newPrefs : AddressPreferences),
      prefs.selectedAddress = some sa →
      ∃ prefs2,
        SelectedPreferences.write prefs newPrefs = Except.ok prefs2 ∧
        SelectedPreferences.read prefs2 = Except.ok newPrefs ∧
        prefs2.selectedAddress = prefs.selectedAddress ∧
        ∀ k', k' ≠ sa →
          objLookup prefs2.identities k' = objLookup prefs.identities k') :=
  transformCell_lens_round_trip [("k", 1), ("other", 99)] "k" 9

/-- The entry `createUser` writes: `\x7b ...defaultAddressPreferences,
...selectedAddressPreferences, theme, defaultPublicAddress: address,
preferredCurrency \x7d` — the selected user's preferences
(`$preferences.selectedAddress && $preferences.identities[...]`, where a
falsy — absent or empty — selected address contributes nothing) override
the defaults, and the three explicit fields override both. -/
def createUserEntry (prefs : Preferences)
    (address preferredCurrency theme : String) : AddressPreferences :=
  let selectedAddressPreferences :=
    match prefs.selectedAddress with
    | none => none
    | some sa => if sa = "" then none else objLookup prefs.identities sa
  let base :=
    match selectedAddressPreferences with
    | some sp => sp
    | none => defaultAddressPreferences
  { base with
      theme := theme
      defaultPublicAddress := address
      preferredCurrency := preferredCurrency }

/-- `PreferencesController.createUser(address, preferredCurrency, theme)`
(part_002 lines 168-189).  Reads `AddressPreferences(address)` — the
`TransformCell.Sub` lens over `identities` — and asserts it is `undefined`,
throwing `'User already exists'` otherwise; only then writes
`createUserEntry` through the lens.  Returns the preferences value after
the call together with the thrown error message, if any. -/
def createUser (prefs : Preferences)
    (address preferredCurrency theme : String) :
    Preferences × Option String :=
  if (objLookup prefs.identities address).isSome then
    (prefs, some "User already exists")
  else
    ({ prefs with
        identities := objUpdate prefs.identities address
          (createUserEntry prefs address preferredCurrency theme) },
      none)

/-- C10: `createUser` throws `'User already exists'` whenever the
preferences cell already holds an identities entry for `address`, and on
that path performs no write — the returned preferences value is exactly the
input.  Only when no entry exists does it write: the error is `none`, a new
entry for `address` carries the requested `theme`, `defaultPublicAddress`
and `preferredCurrency`, and everything else — the selected address and
every other identities entry — is unchanged. -/
theorem createUser_exclusive_write (prefs : Preferences)
    (address preferredCurrency theme : String) :
    (objLookup prefs.identities address ≠ none →
      createUser prefs address preferredCurrency theme =
        (prefs, some "User already exists")) ∧
    (objLookup prefs.identities address = none →
      (createUser prefs address preferredCurrency theme).2 = none ∧
      (∃ entry,
        objLookup
            (createUser prefs address preferredCurrency theme).1.identities
            address = some entry ∧
          entry.theme = theme ∧
          entry.defaultPublicAddress = address ∧
          entry.preferredCurrency = preferredCurrency) ∧
      (createUser prefs address preferredCurrency theme).1.selectedAddress =
        prefs.selectedAddress ∧
      ∀ k, k ≠ address →
        objLookup
            (createUser prefs address preferredCurrency theme).1.identities
            k = objLookup prefs.identities k) := by
  constructor
  · intro h
    have h1 : (objLookup prefs.identities address).isSome = true := by
      cases hl : objLookup prefs.identities address with
      | none => exact absurd hl h
      | some _ => rfl
    simp [createUser, h1]
  · intro h
    refine ⟨?_,
      ⟨createUserEntry prefs address preferredCurrency theme,
        ?_, ?_, ?_, ?_⟩, ?_, ?_⟩
    · simp [createUser, h]
    · simp only [createUser, h, Option.isSome_none, Bool.false_eq_true,
        if_false]
      exact objLookup_objUpdate_self prefs.identities address _
    · rfl
    · rfl
    · rfl
    · simp [createUser, h]
    · intro k hk
      simp only [createUser, h, Option.isSome_none, Bool.false_eq_true,
        if_false]
      exact objLookup_objUpdate_ne prefs.identities address k _ hk

theorem createUser_exclusive_write_witness :
    (objLookup
        (Preferences.mk
          [("addr1",
            { theme := "dark"
              defaultPublicAddress := "addr1"
              preferredCurrency := "EUR"
              contacts := ["c1"] })]
          (some "addr1")).identities "addr1" ≠ none) ∧
    createUser
        (Preferences.mk
          [("addr1",
            { theme := "dark"
              defaultPublicAddress := "addr1"
              preferredCurrency := "EUR"
              contacts := ["c1"] })]
          (some "addr1")) "addr1" "USD" "light" =
      (Preferences.mk
        [("addr1",
          { theme := "dark"
            defaultPublicAddress := "addr1"
            preferredCurrency := "EUR"
            contacts := ["c1"] })]
        (some "addr1"), some "User already exists") :=
  ⟨by simp [objLookup],
    (createUser_exclusive_write
        (Preferences.mk
          [("addr1",
            { theme := "dark"
              defaultPublicAddress := "addr1"
              preferredCurrency := "EUR"
              contacts := ["c1"] })]
          (some "addr1")) "addr1" "USD" "light").1
      (by simp [objLookup])⟩

/-! ## approximate -/

/-- The change predicate `approximate(value, accuracy)` installs on its
`FormulaCell` (part_005 lines 12-18): `previous === undefined` counts as a
change, otherwise `Math.abs(latest - previous) >= accuracy` (numbers
embedded as rationals). -/
def approximateHasChanged (accuracy : ℚ) (previous : Option ℚ) (latest : ℚ) :
    Bool :=
  match previous with
  | none => true
  | some p => decide (accuracy ≤ |latest - p|)

/-- Modelled from the spec: a `FormulaCell` (its class body is not in the
sources) notifies downstream iterators of a recomputed value iff its change
predicate reports a real difference from the formula's previous output; a
suppressed recomputation emits nothing and leaves the previous output in
place.  Returns the list of notified values for a list of recomputed
values. -/
def formulaEmitted (hasChanged : Option ℚ → ℚ → Bool) :
    Option ℚ → List ℚ → List ℚ
  | _, [] => []
  | previousOut, v :: rest =>
    if hasChanged previousOut v then
      v :: formulaEmitted hasChanged (some v) rest
    else
      formulaEmitted hasChanged previousOut rest

/-- C8: for a derived cell produced by `approximate(value, accuracy)`, a
recomputed value `latest` counts as a change — and is emitted to downstream
iterators, becoming the new previous output — iff the previous output is
undefined or `|latest − previous| ≥ accuracy`; a numeric delta smaller than
`accuracy` is suppressed and emits no notification. -/
theorem approximate_change_iff (accuracy latest : ℚ) (previous : Option ℚ)
    (rest : List ℚ) :
    (approximateHasChanged accuracy previous latest = true ↔
      previous = none ∨ ∃ p, previous = some p ∧ accuracy ≤ |latest - p|) ∧
    (approximateHasChanged accuracy previous latest = false →
      formulaEmitted (approximateHasChanged accuracy) previous
          (latest :: rest) =
        formulaEmitted (approximateHasChanged accuracy) previous rest) ∧
    (approximateHasChanged accuracy previous latest = true →
      formulaEmitted (approximateHasChanged accuracy) previous
          (latest :: rest) =
        latest :: formulaEmitted (approximateHasChanged accuracy)
          (some latest) rest) := by
  refine ⟨?_, ?_, ?_⟩
  · cases previous <;> simp [approximateHasChanged]
  · intro h
    simp [formulaEmitted, h]
  · intro h
    simp [formulaEmitted, h]

theorem approximate_change_iff_witness :
    ((approximateHasChanged 3 (some 10) 12 = true ↔
      (some 10 : Option ℚ) = none ∨
        ∃ p, (some 10 : Option ℚ) = some p ∧ (3 : ℚ) ≤ |12 - p|) ∧
    (approximateHasChanged 3 (some 10) 12 = false →
      formulaEmitted (approximateHasChanged 3) (some 10) [12, 14] =
        formulaEmitted (approximateHasChanged 3) (some 10) [14]) ∧
    (approximateHasChanged 3 (some 10) 12 = true →
      formulaEmitted (approximateHasChanged 3) (some 10) [12, 14] =
        12 :: formulaEmitted (approximateHasChanged 3) (some 12) [14])) :=
  approximate_change_iff 3 12 (some 10) [14]

end BlsWallet
